import Mathlib

/-!
Verification development for the JS8Call-Monitor repository.

The definitions below are a shallow embedding of the Python code in
`js8call monitor/js8call_monitor_gui.py` and `js8call-monitor-v1.0/settings.py`:
the configparser-backed configuration object, the `ConnectionStatus` record and
its status indicators, the monitor thread loop, the GUI `load_config`, and the
settings dialog field bindings together with `save_config`.
-/

namespace JS8CM

/-- Python exception kinds raised by the code paths modelled here:
`KeyError` from `config[section]` on a missing section, `ValueError` from
`strtobool` and `int`, and `NoSectionError` from `ConfigParser.set`. -/
inductive PyError where
  | keyError (s : String)
  | valueError (s : String)
  | noSectionError (s : String)
deriving DecidableEq, Repr

/-- ASCII lowering of one character, as Python `str.lower` acts on the ASCII
section and option names used by this program. -/
def lowerAscii (c : Char) : Char :=
  if 65 ≤ c.toNat ∧ c.toNat ≤ 90 then Char.ofNat (c.toNat + 32) else c

/-- Python `str.lower`, restricted to the ASCII strings this program uses. -/
def pyLower (s : String) : String := ⟨s.data.map lowerAscii⟩

/-- `distutils.util.strtobool`: lowers the value, maps the six truthy words to
`True` and the six falsy words to `False`, and raises `ValueError` otherwise. -/
def strtobool (v : String) : Except PyError Bool :=
  let val := pyLower v
  if val = "y" ∨ val = "yes" ∨ val = "t" ∨ val = "true" ∨ val = "on" ∨ val = "1" then
    Except.ok true
  else if val = "n" ∨ val = "no" ∨ val = "f" ∨ val = "false" ∨ val = "off" ∨ val = "0" then
    Except.ok false
  else
    Except.error (PyError.valueError (("invalid truth value ") ++ val))

/-- Whitespace stripping from both ends of a character list, as Python `int`
does before parsing a decimal literal. -/
def stripWs (cs : List Char) : List Char :=
  ((cs.dropWhile Char.isWhitespace).reverse.dropWhile Char.isWhitespace).reverse

/-- Python `int(s)` on decimal string literals: strips whitespace, accepts an
optional sign followed by at least one digit, and raises `ValueError` otherwise. -/
def pyInt (s : String) : Except PyError Int :=
  let cs := stripWs s.data
  let signDigits : Int × List Char :=
    match cs with
    | '+' :: rest => (1, rest)
    | '-' :: rest => (-1, rest)
    | other => (1, other)
  if signDigits.2 ≠ [] ∧ signDigits.2.all Char.isDigit then
    Except.ok (signDigits.1 *
      Int.ofNat (signDigits.2.foldl (fun acc c => acc * 10 + (c.toNat - 48)) 0))
  else
    Except.error (PyError.valueError (("invalid literal for int: ") ++ s))

/-- One INI section as configparser stores it: ordered key/value pairs
(option names were already lowercased when the file was read). -/
abbrev Sect := List (String × String)

/-- A parsed configuration file: ordered sections of key/value string pairs. -/
abbrev Config := List (String × Sect)

/-- First-match lookup of a key in a section. -/
def kvGet? : Sect → String → Option String
  | [], _ => none
  | (k0, v0) :: rest, k => if k0 = k then some v0 else kvGet? rest k

/-- Dictionary update of a section: replace the first matching key in place, or
append the new pair at the end, as a Python dict assignment behaves. -/
def kvSet : Sect → String → String → Sect
  | [], k, v => [(k, v)]
  | (k0, v0) :: rest, k, v => if k0 = k then (k, v) :: rest else (k0, v0) :: kvSet rest k v

/-- Lookup of a section by (case sensitive) name. -/
def findSect? : Config → String → Option Sect
  | [], _ => none
  | (s0, kvs) :: rest, sec => if s0 = sec then some kvs else findSect? rest sec

/-- The configparser membership test `sec in config`. -/
def sectionPresent (cfg : Config) (sec : String) : Bool := (findSect? cfg sec).isSome

/-- `SectionProxy.get(key, default)`: option lookup with configparser key
lowering, returning the default when the key is absent. -/
def sectionGetD (kvs : Sect) (key fb : String) : String := (kvGet? kvs (pyLower key)).getD fb

/-- Subscript access `config[sec]`: `KeyError` when the section is absent. -/
def sectGetE (cfg : Config) (sec : String) : Except PyError Sect :=
  match findSect? cfg sec with
  | some kvs => Except.ok kvs
  | none => Except.error (PyError.keyError sec)

/-- `ConfigParser.get(sec, key)` as an option: none when the section or the
(lowercased) key is absent. -/
def configGet? (cfg : Config) (sec key : String) : Option String :=
  (findSect? cfg sec).bind (fun kvs => kvGet? kvs (pyLower key))

/-- `ConfigParser.get(sec, key, fallback=fb)`: the stored value, or the
fallback when the section or the key is absent. -/
def configGetFB (cfg : Config) (sec key fb : String) : String :=
  (configGet? cfg sec key).getD fb

/-- `ConfigParser.set(sec, key, v)`: raises `NoSectionError` when the section is
absent, otherwise stores the value under the lowercased key. -/
def configSetE : Config → String → String → String → Except PyError Config
  | [], sec, _, _ => Except.error (PyError.noSectionError sec)
  | (s0, kvs) :: rest, sec, key, v =>
    if s0 = sec then Except.ok ((s0, kvSet kvs (pyLower key) v) :: rest)
    else Except.map (fun c => (s0, kvs) :: c) (configSetE rest sec key v)

/-- The transient record of `ConnectionStatus` in js8call_monitor_gui.py:
name, protocol, host, port and the connected flag. -/
structure ConnectionStatus where
  name : String
  protocol : String
  host : String
  port : String
  connected : Bool
deriving DecidableEq, Repr

/-- `ConnectionStatus.__init__`: the connected flag starts out False. -/
def mkConnectionStatus (name protocol host port : String) : ConnectionStatus :=
  { name := name, protocol := protocol, host := host, port := port, connected := false }

/-- `ConnectionStatus.check_connection`: the UDP branch assigns True to the
connected flag, the TCP branch assigns True as well, any other protocol leaves
the record unchanged; the method returns the resulting connected flag.
The result pair is (returned value, updated record). -/
def check_connection (s : ConnectionStatus) : Bool × ConnectionStatus :=
  if s.protocol = "UDP" then (true, { s with connected := true })
  else if s.protocol = "TCP" then (true, { s with connected := true })
  else (s.connected, s)

/-- Modelled from the spec: the behaviour the specification ascribes to
`check_connection`, in which the TCP branch mirrors the connected state of the
external `tcp_client` object instead of using a local constant. The extra
argument is that external state; the definition exists only to be compared with
`check_connection` as translated from the source. -/
def check_connection_claimed (s : ConnectionStatus) (tcpClientConnected : Bool) :
    Bool × ConnectionStatus :=
  if s.protocol = "UDP" then (true, { s with connected := true })
  else if s.protocol = "TCP" then (tcpClientConnected, { s with connected := tcpClientConnected })
  else (s.connected, s)

/-- The two colours `StatusIndicator.update_led` paints the LED. -/
inductive LedColor where
  | green
  | red
deriving DecidableEq, Repr

/-- The `StatusIndicator` widget: its `ConnectionStatus` record and the LED. -/
structure StatusIndicator where
  status : ConnectionStatus
  led : LedColor
deriving DecidableEq, Repr

/-- `StatusIndicator.update_led(connected)`: paints the LED green when
connected and red otherwise, and stores the flag into the status record. -/
def update_led (ind : StatusIndicator) (connected : Bool) : StatusIndicator :=
  { status := { ind.status with connected := connected },
    led := if connected then LedColor.green else LedColor.red }

/-- `StatusIndicator.check_status`: runs `check_connection` on the status
record and feeds the returned flag to `update_led`. -/
def check_status (ind : StatusIndicator) : StatusIndicator :=
  let r := check_connection ind.status
  update_led { ind with status := r.2 } r.1

/-- `JS8CallMonitorGUI.update_status(force)`: every indicator is refreshed with
`check_status`, and when force is set, `update_led(True)` is applied on top. -/
def update_status (force : Bool) (inds : List StatusIndicator) : List StatusIndicator :=
  inds.map (fun ind => let i := check_status ind; if force then update_led i true else i)

/-- The delay of the `QTimer.singleShot(1000, ...)` call in `start_monitor`
that triggers `update_status(force=True)`. -/
def forceUpdateDelayMs : Nat := 1000

/-- A QTimer hookup: its interval and the slot it fires. -/
structure TimerSetup where
  intervalMs : Nat
  handler : List StatusIndicator → List StatusIndicator

/-- The status refresh timer built in `JS8CallMonitorGUI.__init__`:
`timer.start(2000)` connected to `update_status` (with its default
`force=False`). -/
def statusTimer : TimerSetup :=
  { intervalMs := 2000, handler := fun inds => update_status false inds }

/-- The observable events of one pass of the monitor thread body: the parsing
callbacks it invokes and the sleep that ends the pass. -/
inductive Ev where
  | parseJson
  | resetVals
  | parseCmd
  | sleepMs (ms : Nat)
deriving DecidableEq, Repr

/-- The message-queue drain loop of `MonitorThread.run`: while the queue is not
empty, call `parse_json` then `reset_vals`. Modelled from the spec: each
`parse_json` call of the unseen `js8call_monitor` module consumes exactly one
queued item, so the loop runs once per item. -/
def drainMsgLoop : List String → List Ev
  | [] => []
  | _ :: rest => Ev.parseJson :: Ev.resetVals :: drainMsgLoop rest

/-- The command-queue drain loop of `MonitorThread.run`: while the queue is not
empty, call `parse_cmd` then `reset_vals`. Modelled from the spec: each
`parse_cmd` call consumes exactly one queued item. -/
def drainCmdLoop : List String → List Ev
  | [] => []
  | _ :: rest => Ev.parseCmd :: Ev.resetVals :: drainCmdLoop rest

/-- The event trace of one iteration body of `MonitorThread.run`: drain the
message queue, then the command queue, then `time.sleep(0.5)` (500 ms). -/
def runIterationTrace (msgs cmds : List String) : List Ev :=
  drainMsgLoop msgs ++ drainCmdLoop cmds ++ [Ev.sleepMs 500]

/-- The state of the monitor thread: the running flag, the two queues, and the
accumulated event trace. -/
structure ThreadState where
  running : Bool
  msgQueue : List String
  cmdQueue : List String
  trace : List Ev
deriving DecidableEq, Repr

/-- One iteration body of `MonitorThread.run` acting on the thread state: both
queues are drained and the iteration trace is appended. The body never reads
the running flag. -/
def runIteration (st : ThreadState) : ThreadState :=
  { st with msgQueue := [], cmdQueue := [],
            trace := st.trace ++ runIterationTrace st.msgQueue st.cmdQueue }

/-- The while-condition of `MonitorThread.run`: when the running flag is set the
next iteration begins, otherwise the loop ends. This is the only place the
flag is consulted. -/
def threadStep (st : ThreadState) : Option ThreadState :=
  if st.running then some (runIteration st) else none

/-- `MonitorThread.stop`: clears the running flag. -/
def threadStop (st : ThreadState) : ThreadState := { st with running := false }

/-- A monitor thread run: the thread state plus the errors emitted so far on
the `error_signal`. -/
structure ThreadRun where
  st : ThreadState
  emitted : List String
deriving DecidableEq, Repr

/-- The try/except wrapping of one loop iteration in `MonitorThread.run`: the
body runs; on an exception, its string is emitted on `error_signal` and the
state is otherwise left as it was. The body is a parameter because the parsing
callbacks live in the unseen `js8call_monitor` module and may raise anywhere. -/
def monitorLoopIter (body : ThreadState → Except String ThreadState) (r : ThreadRun) :
    ThreadRun :=
  match body r.st with
  | Except.ok st2 => { r with st := st2 }
  | Except.error e => { r with emitted := r.emitted ++ [e] }

/-- `JS8CallMonitorGUI.show_error`: prints the message prefixed with `Error: `. -/
def show_error (printed : List String) (msg : String) : List String :=
  printed ++ [("Error: ") ++ msg]

/-- The `error_signal.connect(self.show_error)` hookup made in `start_monitor`:
the slot receiving emitted errors is `show_error`. -/
def errorSignalHandler : List String → String → List String := show_error

/-- The kind of form widget a configuration key is bound to in the settings
dialog: a QLineEdit, a QCheckBox (read through `strtobool`), or a QSpinBox
with its `setRange` bounds. -/
inductive FieldKind where
  | text
  | check
  | spin (lo hi : Int)
deriving DecidableEq, Repr

/-- One widget-to-key binding of the settings dialog: section, option key, the
widget kind, and the fallback default passed to `config.get`. -/
structure Field where
  sec : String
  key : String
  kind : FieldKind
  fb : String
deriving DecidableEq, Repr

/-- A form widget value: the text of a QLineEdit, the checked state of a
QCheckBox, or the value of a QSpinBox. -/
inductive Widget where
  | wtext (s : String)
  | wcheck (b : Bool)
  | wspin (n : Int)
deriving DecidableEq, Repr

/-- `QSpinBox.setValue` clamps the value into the range set by `setRange`. -/
def clampSpin (lo hi n : Int) : Int := max lo (min hi n)

/-- Populating one widget from a raw configuration string, as the
`create_*_tab` methods do: QLineEdit takes the string verbatim, QCheckBox is
set from `strtobool`, QSpinBox from `int` clamped into its range. The
`ValueError` of a bad boolean or integer propagates (it is uncaught there). -/
def loadWidget : FieldKind → String → Except PyError Widget
  | FieldKind.text, v => Except.ok (Widget.wtext v)
  | FieldKind.check, v => Except.map Widget.wcheck (strtobool v)
  | FieldKind.spin lo hi, v => Except.map (fun n => Widget.wspin (clampSpin lo hi n)) (pyInt v)

/-- Rendering a widget back to the string `save_config` writes: `.text()` for
QLineEdit, `str(isChecked()).lower()` for QCheckBox, `str(value())` for
QSpinBox. -/
def saveWidget : Widget → String
  | Widget.wtext s => s
  | Widget.wcheck b => if b then "true" else "false"
  | Widget.wspin n => toString n

/-- Every widget-to-key binding of `SettingsDialog`, with the widget kind,
spin ranges and fallback defaults taken from the `create_*_tab` methods, listed
in the order `save_config` writes them. -/
def fields : List Field :=
  [ ⟨"STATION", "operator", FieldKind.text, ""⟩,
    ⟨"STATION", "class", FieldKind.text, ""⟩,
    ⟨"STATION", "my_gridsquare", FieldKind.text, ""⟩,
    ⟨"STATION", "my_name", FieldKind.text, ""⟩,
    ⟨"STATION", "my_county", FieldKind.text, ""⟩,
    ⟨"TCP", "enabled", FieldKind.check, "false"⟩,
    ⟨"TCP", "host", FieldKind.text, "127.0.0.1"⟩,
    ⟨"TCP", "port", FieldKind.spin 1 65535, "2171"⟩,
    ⟨"TCP", "poll_status_interval", FieldKind.spin 1 60, "5"⟩,
    ⟨"JS8Call", "host", FieldKind.text, "127.0.0.1"⟩,
    ⟨"JS8Call", "port", FieldKind.spin 1 65535, "2242"⟩,
    ⟨"N1MM", "enabled", FieldKind.check, "false"⟩,
    ⟨"N1MM", "host", FieldKind.text, "127.0.0.1"⟩,
    ⟨"N1MM", "port", FieldKind.spin 1 65535, "12060"⟩,
    ⟨"GRIDTRACKER", "enabled", FieldKind.check, "false"⟩,
    ⟨"GRIDTRACKER", "host", FieldKind.text, "127.0.0.1"⟩,
    ⟨"GRIDTRACKER", "port", FieldKind.spin 1 65535, "2237"⟩,
    ⟨"GEOSERVER", "enabled_msg", FieldKind.check, "false"⟩,
    ⟨"GEOSERVER", "enabled_spot", FieldKind.check, "false"⟩,
    ⟨"GEOSERVER", "host", FieldKind.text, "127.0.0.1"⟩,
    ⟨"GEOSERVER", "port", FieldKind.spin 1 65535, "8080"⟩,
    ⟨"GEOSERVER", "token", FieldKind.text, ""⟩,
    ⟨"YAAC", "enabled", FieldKind.check, "false"⟩,
    ⟨"YAAC", "logfile", FieldKind.text, "yaac.log"⟩,
    ⟨"ADIF", "enabled", FieldKind.check, "false"⟩,
    ⟨"ADIF", "logfile", FieldKind.text, "adif.log"⟩,
    ⟨"DATABASES", "location", FieldKind.text, "./"⟩,
    ⟨"DATABASES", "FccData", FieldKind.check, "false"⟩,
    ⟨"DATABASES", "HamCallCD", FieldKind.check, "false"⟩,
    ⟨"DATABASES", "RacCD", FieldKind.check, "false"⟩,
    ⟨"DATABASES", "LocalDB", FieldKind.check, "false"⟩,
    ⟨"DATABASES", "LocalDB_learn", FieldKind.check, "false"⟩,
    ⟨"DATABASES", "Collect_Rejects", FieldKind.check, "false"⟩,
    ⟨"DATABASES", "Callook", FieldKind.check, "false"⟩,
    ⟨"DATABASES", "HamCallOnline", FieldKind.check, "false"⟩,
    ⟨"DATABASES", "HCusername", FieldKind.text, ""⟩,
    ⟨"DATABASES", "HCpassword", FieldKind.text, ""⟩,
    ⟨"DEBUG", "consolelevel", FieldKind.spin 0 10, "0"⟩,
    ⟨"DEBUG", "logfilelevel", FieldKind.spin 0 10, "0"⟩,
    ⟨"DEBUG", "logfile", FieldKind.text, "js8monitor.log"⟩,
    ⟨"SMTP", "enabled", FieldKind.check, "false"⟩,
    ⟨"SMTP", "host", FieldKind.text, ""⟩,
    ⟨"SMTP", "port", FieldKind.spin 1 65535, "587"⟩,
    ⟨"SMTP", "user", FieldKind.text, ""⟩,
    ⟨"SMTP", "pass", FieldKind.text, ""⟩,
    ⟨"SMTP", "mailfrom", FieldKind.text, ""⟩,
    ⟨"SMTP", "mailto", FieldKind.text, ""⟩,
    ⟨"GRIDS", "gridlength", FieldKind.spin 1 11, "6"⟩,
    ⟨"GRIDS", "frominfo", FieldKind.check, "false"⟩,
    ⟨"GRIDS", "map_all", FieldKind.check, "false"⟩,
    ⟨"GRIDS", "map_cq", FieldKind.check, "true"⟩,
    ⟨"GRIDS", "map_heartbeat", FieldKind.check, "true"⟩,
    ⟨"GRIDS", "map_info", FieldKind.check, "true"⟩,
    ⟨"GRIDS", "map_status", FieldKind.check, "true"⟩,
    ⟨"GRIDS", "map_log", FieldKind.check, "true"⟩,
    ⟨"GRIDS", "map_qso", FieldKind.check, "true"⟩,
    ⟨"GRIDS", "map_snr", FieldKind.check, "true"⟩,
    ⟨"GRIDS", "auto_close", FieldKind.check, "false"⟩,
    ⟨"AUTH", "enabled", FieldKind.check, "false"⟩,
    ⟨"AUTH", "token", FieldKind.text, ""⟩ ]

/-- Reading one bound field for the dialog: `config.get(sec, key, fallback=fb)`
followed by the widget-kind specific conversion. -/
def dialogLoadField (cfg : Config) (f : Field) : Except PyError Widget :=
  loadWidget f.kind (configGetFB cfg f.sec f.key f.fb)

/-- Load-then-save of one field on a stored value: what Save writes back for a
key whose widget was populated from the string v and left untouched. -/
def fieldRoundTrip (f : Field) (v : String) : Except PyError String :=
  Except.map saveWidget (loadWidget f.kind v)

/-- Whether a stored string is already in the canonical form Save re-renders:
any text, the exact words true/false for a checkbox, the decimal rendering of
its own clamped integer value for a spinbox. -/
def canonicalValue : FieldKind → String → Bool
  | FieldKind.text, _ => true
  | FieldKind.check, v => v == "true" || v == "false"
  | FieldKind.spin lo hi, v =>
    match pyInt v with
    | Except.ok n => v == toString (clampSpin lo hi n)
    | Except.error _ => false

/-- The (section, key) pairs `save_config` writes, in its order. -/
def boundKeys : List (String × String) := fields.map (fun f => (f.sec, f.key))

/-- The sequence of `config.set` calls of `save_config` over a list of keys,
taking each written string from the form values; the first `NoSectionError`
aborts the sequence, as the exception would. -/
def setList : List (String × String) → Config → (String → String → String) →
    Except PyError Config
  | [], cfg, _ => Except.ok cfg
  | sk :: rest, cfg, vals =>
    match configSetE cfg sk.1 sk.2 (vals sk.1 sk.2) with
    | Except.ok c2 => setList rest c2 vals
    | Except.error e => Except.error e

/-- All sixty `config.set` calls of `save_config` on the loaded config object. -/
def setAllE (cfg : Config) (vals : String → String → String) : Except PyError Config :=
  setList boundKeys cfg vals

/-- Python `str(e)` for the exceptions modelled here. -/
def pyErrStr : PyError → String
  | PyError.keyError s => s
  | PyError.valueError s => s
  | PyError.noSectionError s => ("No section: ") ++ s

/-- The observable outcome of pressing Save: whether the dialog was accepted,
the configuration written to the file (none when nothing was written), and the
critical message box shown on failure. -/
structure SaveOutcome where
  accepted : Bool
  fileWritten : Option Config
  critical : Option String
deriving DecidableEq, Repr

/-- `SettingsDialog.save_config`: inside one try block, every bound key is set
from its widget and the whole config object is rewritten to the file, then the
dialog is accepted; on any exception a critical box shows the error and the
dialog is not accepted. -/
def save_config (cfg : Config) (vals : String → String → String) : SaveOutcome :=
  match setAllE cfg vals with
  | Except.ok c2 => { accepted := true, fileWritten := some c2, critical := none }
  | Except.error e =>
    { accepted := false, fileWritten := none,
      critical := some (("Failed to save configuration:\n") ++ pyErrStr e) }

/-- The user reply to the confirmation box of `restore_defaults`. -/
inductive Reply where
  | yes
  | no
deriving DecidableEq, Repr

/-- The mutable state `restore_defaults` could have touched: the in-memory
config object, the form widgets and the config file. -/
structure DialogState where
  config : Config
  widgets : List Widget
  file : Config
deriving DecidableEq, Repr

/-- A message box shown by the dialog. -/
inductive MsgBox where
  | question (t : String)
  | information (t : String)
deriving DecidableEq, Repr

/-- `SettingsDialog.restore_defaults`: asks a confirmation question and, on
Yes, shows an information box telling the user to restore a backup by hand; it
returns the dialog state it was given together with the boxes shown. -/
def restore_defaults (reply : Reply) (st : DialogState) : DialogState × List MsgBox :=
  match reply with
  | Reply.yes => (st, [MsgBox.question ("Restore Defaults"), MsgBox.information ("Restore Defaults")])
  | Reply.no => (st, [MsgBox.question ("Restore Defaults")])

/-- The tcp_enabled computation at the top of `JS8CallMonitorGUI.load_config`:
inside a try/except, when the TCP section is present its enabled key (default
false) is parsed with `strtobool`; any exception, and the absent section, leave
it False. -/
def tcpEnabledOf (cfg : Config) : Bool :=
  match findSect? cfg "TCP" with
  | none => false
  | some kvs =>
    match strtobool (sectionGetD kvs ("enabled") ("false")) with
    | Except.ok b => b
    | Except.error _ => false

/-- The source indicator creation of `load_config`: the TCP section when
tcp_enabled, otherwise the JS8Call section accessed by subscript (KeyError when
absent), with the per-key host/port defaults. -/
def srcStep (cfg : Config) : Except PyError ConnectionStatus :=
  if tcpEnabledOf cfg then
    match sectGetE cfg ("TCP") with
    | Except.error e => Except.error e
    | Except.ok kvs =>
      Except.ok (mkConnectionStatus ("JS8Call (TCP)") ("TCP")
        (sectionGetD kvs ("host") ("127.0.0.1")) (sectionGetD kvs ("port") ("2171")))
  else
    match sectGetE cfg ("JS8Call") with
    | Except.error e => Except.error e
    | Except.ok kvs =>
      Except.ok (mkConnectionStatus ("JS8Call (UDP)") ("UDP")
        (sectionGetD kvs ("host") ("127.0.0.1")) (sectionGetD kvs ("port") ("2242")))

/-- The enabled-guarded UDP client block of `load_config` (the N1MM and
GridTracker pattern): subscript the section (KeyError when absent), parse its
enabled key with `strtobool` (ValueError uncaught), and when enabled create the
indicator with the per-key defaults. -/
def udpClientStep (cfg : Config) (sec name defHost defPort : String) :
    Except PyError (List ConnectionStatus) :=
  match sectGetE cfg sec with
  | Except.error e => Except.error e
  | Except.ok kvs =>
    match strtobool (sectionGetD kvs ("enabled") ("false")) with
    | Except.error e => Except.error e
    | Except.ok b =>
      Except.ok (if b then
        [mkConnectionStatus name ("UDP") (sectionGetD kvs ("host") defHost)
          (sectionGetD kvs ("port") defPort)]
      else [])

/-- The GeoServer block of `load_config`: both enabled_msg and enabled_spot are
parsed (in that order), and the indicator is created when either holds. -/
def geoServerStep (cfg : Config) : Except PyError (List ConnectionStatus) :=
  match sectGetE cfg ("GEOSERVER") with
  | Except.error e => Except.error e
  | Except.ok kvs =>
    match strtobool (sectionGetD kvs ("enabled_msg") ("false")) with
    | Except.error e => Except.error e
    | Except.ok m =>
      match strtobool (sectionGetD kvs ("enabled_spot") ("false")) with
      | Except.error e => Except.error e
      | Except.ok sp =>
        Except.ok (if m || sp then
          [mkConnectionStatus ("GeoServer") ("UDP") (sectionGetD kvs ("host") ("127.0.0.1"))
            (sectionGetD kvs ("port") ("8080"))]
        else [])

/-- The log-file client block of `load_config` (the YAAC and ADIF pattern):
subscript the section, parse its enabled key, and when enabled create a FILE
indicator on the logfile key. -/
def fileClientStep (cfg : Config) (sec name defLog : String) :
    Except PyError (List ConnectionStatus) :=
  match sectGetE cfg sec with
  | Except.error e => Except.error e
  | Except.ok kvs =>
    match strtobool (sectionGetD kvs ("enabled") ("false")) with
    | Except.error e => Except.error e
    | Except.ok b =>
      Except.ok (if b then
        [mkConnectionStatus name ("FILE") ("Log") (sectionGetD kvs ("logfile") defLog)]
      else [])

/-- `JS8CallMonitorGUI.load_config`: the source indicator followed by the five
client blocks in program order; the first uncaught exception aborts the
method. -/
def gui_load_config (cfg : Config) : Except PyError (List ConnectionStatus) :=
  match srcStep cfg with
  | Except.error e => Except.error e
  | Except.ok src =>
  match udpClientStep cfg ("N1MM") ("N1MM+") ("127.0.0.1") ("12060") with
  | Except.error e => Except.error e
  | Except.ok l1 =>
  match udpClientStep cfg ("GRIDTRACKER") ("GridTracker") ("127.0.0.1") ("2237") with
  | Except.error e => Except.error e
  | Except.ok l2 =>
  match geoServerStep cfg with
  | Except.error e => Except.error e
  | Except.ok l3 =>
  match fileClientStep cfg ("YAAC") ("YAAC") ("yaac.log") with
  | Except.error e => Except.error e
  | Except.ok l4 =>
  match fileClientStep cfg ("ADIF") ("ADIF") ("adif.log") with
  | Except.error e => Except.error e
  | Except.ok l5 => Except.ok (src :: (l1 ++ l2 ++ l3 ++ l4 ++ l5))

/-- Whether an Except result is an exception. -/
def isErrorE {α : Type} : Except PyError α → Bool
  | Except.error _ => true
  | Except.ok _ => false

/-- Whether an Except result is specifically a KeyError. -/
def isKeyErrorE {α : Type} : Except PyError α → Bool
  | Except.error (PyError.keyError _) => true
  | Except.error (PyError.valueError _) => false
  | Except.error (PyError.noSectionError _) => false
  | Except.ok _ => false

/-- Whether an Except result is a success. -/
def isOkE {α : Type} : Except PyError α → Bool
  | Except.ok _ => true
  | Except.error _ => false

lemma drainMsg_eq_join (msgs : List String) :
    drainMsgLoop msgs = (msgs.map (fun _ => [Ev.parseJson, Ev.resetVals])).flatten := by
  induction msgs with
  | nil => rfl
  | cons m rest ih => simp [drainMsgLoop, ih]

lemma drainCmd_eq_join (cmds : List String) :
    drainCmdLoop cmds = (cmds.map (fun _ => [Ev.parseCmd, Ev.resetVals])).flatten := by
  induction cmds with
  | nil => rfl
  | cons c rest ih => simp [drainCmdLoop, ih]

lemma drainMsg_length (msgs : List String) :
    (drainMsgLoop msgs).length = 2 * msgs.length := by
  induction msgs with
  | nil => rfl
  | cons m rest ih => simp [drainMsgLoop, ih]; ring

lemma drainCmd_length (cmds : List String) :
    (drainCmdLoop cmds).length = 2 * cmds.length := by
  induction cmds with
  | nil => rfl
  | cons c rest ih => simp [drainCmdLoop, ih]; ring

/-- Claim C1, counterexample: on a TCP status record whose external client is
disconnected, `check_connection` as written returns the hard-coded value true,
while the specified mirroring behaviour would return the external state false;
the TCP return value is a local constant, not a mirror of `tcp_client`. -/
theorem C1_counterexample :
    (check_connection (mkConnectionStatus ("JS8Call (TCP)") ("TCP") ("127.0.0.1") ("2171"))).1
      = true
    ∧ (check_connection_claimed
        (mkConnectionStatus ("JS8Call (TCP)") ("TCP") ("127.0.0.1") ("2171")) false).1 = false
    ∧ (check_connection (mkConnectionStatus ("JS8Call (TCP)") ("TCP") ("127.0.0.1") ("2171"))).1
      ≠ (check_connection_claimed
          (mkConnectionStatus ("JS8Call (TCP)") ("TCP") ("127.0.0.1") ("2171")) false).1 := by
  refine ⟨rfl, rfl, by decide⟩

/-- Claim C1, amended: for every `ConnectionStatus` record whose protocol is
UDP or TCP, `check_connection` returns True and sets the connected flag to
True; both branches hard-code the value, and the TCP branch in particular does
not consult any external client state. -/
theorem C1_thm (s : ConnectionStatus)
    (h : s.protocol = "UDP" ∨ s.protocol = "TCP") :
    check_connection s = (true, { s with connected := true }) := by
  rcases h with h | h <;> simp [check_connection, h]

/-- Witness for C1_thm at a concrete UDP record. -/
theorem C1_witness :
    check_connection (mkConnectionStatus ("JS8Call (UDP)") ("UDP") ("127.0.0.1") ("2242"))
      = (true,
        { mkConnectionStatus ("JS8Call (UDP)") ("UDP") ("127.0.0.1") ("2242") with
            connected := true }) :=
  C1_thm _ (Or.inl rfl)

/-- The conclusion of claim C5: an exception in the loop body is emitted on the
error signal with the state otherwise unchanged, the running flag survives so
the loop continues, the connected handler prints the message, and a failing
`save_config` shows a critical box, writes nothing and does not accept the
dialog. -/
def C5Prop (body : ThreadState → Except String ThreadState) (r : ThreadRun) (e : String)
    (printed : List String) (cfg : Config) (vals : String → String → String)
    (err : PyError) : Prop :=
  monitorLoopIter body r = { r with emitted := r.emitted ++ [e] }
  ∧ (monitorLoopIter body r).st.running = r.st.running
  ∧ errorSignalHandler printed e = printed ++ [("Error: ") ++ e]
  ∧ (save_config cfg vals).accepted = false
  ∧ (save_config cfg vals).critical
      = some (("Failed to save configuration:\n") ++ pyErrStr err)
  ∧ (save_config cfg vals).fileWritten = none

/-- Claim C5: every exception raised by the polling loop body is caught at the
top of the loop, stringified and reported through the error signal to the
printing handler, after which the loop keeps its running flag; and every
exception during `save_config` is caught, shown in a critical message box, and
the dialog is not accepted. -/
theorem C5_thm (body : ThreadState → Except String ThreadState) (r : ThreadRun)
    (e : String) (printed : List String) (cfg : Config)
    (vals : String → String → String) (err : PyError)
    (hb : body r.st = Except.error e)
    (hs : setAllE cfg vals = Except.error err) :
    C5Prop body r e printed cfg vals err := by
  refine ⟨?_, ?_, rfl, ?_, ?_, ?_⟩ <;> simp [monitorLoopIter, hb, save_config, hs]

/-- Witness for C5_thm: a body that raises, and a save on an empty config whose
first `config.set` raises `NoSectionError`. -/
theorem C5_witness :
    C5Prop (fun _ => Except.error ("boom")) ⟨⟨true, [], [], []⟩, []⟩ ("boom") [] []
      (fun _ _ => "") (PyError.noSectionError ("STATION")) :=
  C5_thm _ _ _ _ _ _ _ rfl rfl

/-- Claim C6: one iteration of the monitor thread first drains the message
queue (parse_json then reset_vals once per item), then the command queue
(parse_cmd then reset_vals once per item), then sleeps 500 ms; and the UI
status timer independently fires `update_status` every 2000 ms. -/
theorem C6_thm (msgs cmds : List String) :
    runIterationTrace msgs cmds
      = (msgs.map (fun _ => [Ev.parseJson, Ev.resetVals])).flatten
        ++ (cmds.map (fun _ => [Ev.parseCmd, Ev.resetVals])).flatten ++ [Ev.sleepMs 500]
    ∧ (runIterationTrace msgs cmds).length = 2 * msgs.length + 2 * cmds.length + 1
    ∧ statusTimer.intervalMs = 2000
    ∧ statusTimer.handler = fun inds => update_status false inds := by
  refine ⟨?_, ?_, rfl, rfl⟩
  · simp [runIterationTrace, drainMsg_eq_join, drainCmd_eq_join]
  · simp [runIterationTrace, drainMsg_length, drainCmd_length]
    ring

/-- The conclusion of claim C7: a running thread begins exactly the next
iteration, a stopped thread never begins another one, and the iteration body
(the queue draining) neither reads nor changes the running flag. -/
def C7Prop (st : ThreadState) : Prop :=
  threadStep st = some (runIteration st)
  ∧ threadStep (threadStop st) = none
  ∧ ∀ b, runIteration { st with running := b } = { runIteration st with running := b }

/-- Claim C7: the boolean running flag is the only cancellation mechanism and
is consulted once per outer iteration; after `stop` the thread never begins
another iteration, while draining inside an iteration is insensitive to the
flag. -/
theorem C7_thm (st : ThreadState) (h : st.running = true) : C7Prop st := by
  refine ⟨by simp [threadStep, h], by simp [threadStep, threadStop], ?_⟩
  intro b
  rfl

/-- Witness for C7_thm at a concrete running state with queued items. -/
theorem C7_witness : C7Prop ⟨true, [("m")], [("c")], []⟩ :=
  C7_thm _ rfl

/-- Claim C9: `restore_defaults` never modifies any state: for either reply to
its confirmation question it returns the dialog state unchanged, only showing
message boxes. -/
theorem C9_thm : ∀ (reply : Reply) (st : DialogState), (restore_defaults reply st).1 = st := by
  intro reply st
  cases reply <;> rfl

/-- Claim C10: `update_status` with force set (fired one second after the
monitor starts) leaves every indicator with its LED green and its connected
flag True, regardless of protocol, configuration or actual connection state. -/
theorem C10_thm : ∀ inds : List StatusIndicator,
    ((update_status true inds).all
      (fun i => i.status.connected && (i.led == LedColor.green))) = true
    ∧ forceUpdateDelayMs = 1000 := by
  intro inds
  refine ⟨?_, rfl⟩
  rw [List.all_eq_true]
  intro x hx
  rw [update_status, List.mem_map] at hx
  obtain ⟨y, _, hy⟩ := hx
  rw [← hy]
  rfl

lemma strtobool_lit_true : strtobool ("true") = Except.ok true := by rfl

lemma strtobool_lit_false : strtobool ("false") = Except.ok false := by rfl

/-- Claim C2, counterexample: the TCP enabled key is bound to a checkbox, and
the stored value yes round-trips to true on Save, not back to yes; the copy
between form field and config key is not verbatim for every stored value. -/
theorem C2_counterexample :
    (⟨"TCP", "enabled", FieldKind.check, "false"⟩ : Field) ∈ fields
    ∧ fieldRoundTrip (⟨"TCP", "enabled", FieldKind.check, "false"⟩ : Field) ("yes")
        = Except.ok ("true")
    ∧ ("true" : String) ≠ "yes" := by
  refine ⟨by decide, rfl, by decide⟩

/-- Claim C2, amended: for every bound field whose load succeeds, Save writes
back exactly the value that was read if and only if that value is already in
canonical form: always for line-edit fields, for checkbox fields exactly when
the stored value is the word true or false, for spinbox fields exactly when it
is the decimal rendering of its own range-clamped integer; otherwise Save
writes the canonical rendering instead. -/
theorem C2_thm (f : Field) (hf : f ∈ fields) (v : String) (w : Widget)
    (h : loadWidget f.kind v = Except.ok w) :
    (saveWidget w = v ↔ canonicalValue f.kind v = true) := by
  obtain ⟨fs, fk, fkind, ffb⟩ := f
  cases fkind with
  | text =>
    simp only [loadWidget, Except.ok.injEq] at h
    subst h
    simp [saveWidget, canonicalValue]
  | check =>
    simp only [loadWidget] at h
    cases hb : strtobool v with
    | error e => rw [hb] at h; simp [Except.map] at h
    | ok b =>
      rw [hb] at h
      simp only [Except.map, Except.ok.injEq] at h
      subst h
      constructor
      · intro hv
        cases b
        · simp only [saveWidget, if_neg, Bool.false_eq_true, ite_false] at hv
          simp [canonicalValue, ← hv]
        · simp only [saveWidget, ite_true] at hv
          simp [canonicalValue, ← hv]
      · intro hv
        simp only [canonicalValue, Bool.or_eq_true, beq_iff_eq] at hv
        rcases hv with hv | hv
        · subst hv
          rw [strtobool_lit_true] at hb
          simp only [Except.ok.injEq] at hb
          subst hb
          rfl
        · subst hv
          rw [strtobool_lit_false] at hb
          simp only [Except.ok.injEq] at hb
          subst hb
          rfl
  | spin lo hi =>
    simp only [loadWidget] at h
    cases hn : pyInt v with
    | error e => rw [hn] at h; simp [Except.map] at h
    | ok n =>
      rw [hn] at h
      simp only [Except.map, Except.ok.injEq] at h
      subst h
      simp only [saveWidget, canonicalValue, hn, beq_iff_eq]
      exact eq_comm

/-- Witness for C2_thm at the operator line-edit field: a text value
round-trips verbatim. -/
theorem C2_witness :
    (⟨"STATION", "operator", FieldKind.text, ""⟩ : Field) ∈ fields
    ∧ (saveWidget (Widget.wtext ("W1AW")) = "W1AW"
        ↔ canonicalValue FieldKind.text ("W1AW") = true) :=
  ⟨by decide, C2_thm ⟨"STATION", "operator", FieldKind.text, ""⟩ (by decide) ("W1AW") _ rfl⟩

lemma fields_defaults_ok :
    fields.all (fun f => isOkE (loadWidget f.kind f.fb)) = true := by decide

/-- Claim C4: for every bound field, when the field's section is present but
its key is absent, the dialog populates the widget from that field's fixed
fallback default (2171 for TCP port, 2242 for the JS8Call UDP port, 12060 for
N1MM, 2237 for GridTracker, 8080 for GeoServer, 587 for SMTP, 6 for grid
length, and so on), and that default always loads without an exception. -/
theorem C4_thm (f : Field) (hf : f ∈ fields) (cfg : Config) (kvs : Sect)
    (hsec : findSect? cfg f.sec = some kvs)
    (hkey : kvGet? kvs (pyLower f.key) = none) :
    dialogLoadField cfg f = loadWidget f.kind f.fb
    ∧ isOkE (loadWidget f.kind f.fb) = true := by
  constructor
  · rw [dialogLoadField, configGetFB, configGet?, hsec]
    simp [hkey]
  · exact List.all_eq_true.mp fields_defaults_ok f hf

/-- Witness for C4_thm: the TCP port field on a config whose TCP section lacks
the port key loads the fixed default 2171. -/
theorem C4_witness :
    dialogLoadField [("TCP", [("enabled", "true")])]
        (⟨"TCP", "port", FieldKind.spin 1 65535, "2171"⟩ : Field)
      = loadWidget (FieldKind.spin 1 65535) ("2171")
    ∧ isOkE (loadWidget (FieldKind.spin 1 65535) ("2171")) = true :=
  C4_thm ⟨"TCP", "port", FieldKind.spin 1 65535, "2171"⟩ (by decide) _ _ rfl rfl

lemma kvGet_kvSet_self (kvs : Sect) (k v : String) :
    kvGet? (kvSet kvs k v) k = some v := by
  induction kvs with
  | nil => simp [kvSet, kvGet?]
  | cons p rest ih =>
    obtain ⟨k0, v0⟩ := p
    by_cases hk : k0 = k
    · simp [kvSet, hk, kvGet?]
    · simp [kvSet, hk, kvGet?, ih]

lemma kvGet_kvSet_ne (kvs : Sect) (k k2 v : String) (hne : k2 ≠ k) :
    kvGet? (kvSet kvs k v) k2 = kvGet? kvs k2 := by
  induction kvs with
  | nil => simp [kvSet, kvGet?, Ne.symm hne]
  | cons p rest ih =>
    obtain ⟨k0, v0⟩ := p
    by_cases hk : k0 = k
    · subst hk
      have hne2 : k0 ≠ k2 := fun hh => hne (hh ▸ rfl)
      simp [kvSet, kvGet?, hne2]
    · by_cases hk2 : k0 = k2
      · subst hk2
        simp [kvSet, hk, kvGet?]
      · simp [kvSet, hk, kvGet?, hk2, ih]

lemma kvGet_kvSet_isSome (kvs : Sect) (k k2 v : String)
    (h : (kvGet? kvs k2).isSome = true) :
    (kvGet? (kvSet kvs k v) k2).isSome = true := by
  by_cases hk : k2 = k
  · subst hk
    rw [kvGet_kvSet_self]
    rfl
  · rw [kvGet_kvSet_ne kvs k k2 v hk]
    exact h

lemma configSetE_map_fst (cfg : Config) (sec key v : String) (cfg2 : Config)
    (h : configSetE cfg sec key v = Except.ok cfg2) :
    cfg2.map Prod.fst = cfg.map Prod.fst := by
  induction cfg generalizing cfg2 with
  | nil => simp [configSetE] at h
  | cons p rest ih =>
    obtain ⟨s0, kvs⟩ := p
    by_cases hs : s0 = sec
    · subst hs
      simp only [configSetE, if_pos, Except.ok.injEq] at h
      subst h
      simp
    · simp only [configSetE, hs, ite_false] at h
      cases hr : configSetE rest sec key v with
      | error e => rw [hr] at h; simp [Except.map] at h
      | ok c =>
        rw [hr] at h
        simp only [Except.map, Except.ok.injEq] at h
        subst h
        simp [ih c hr]

lemma configSetE_get_ne (cfg : Config) (sec key v sec2 key2 : String) (cfg2 : Config)
    (h : configSetE cfg sec key v = Except.ok cfg2)
    (hne : ¬(sec2 = sec ∧ pyLower key2 = pyLower key)) :
    configGet? cfg2 sec2 key2 = configGet? cfg sec2 key2 := by
  induction cfg generalizing cfg2 with
  | nil => simp [configSetE] at h
  | cons p rest ih =>
    obtain ⟨s0, kvs⟩ := p
    by_cases hs : s0 = sec
    · subst hs
      simp only [configSetE, if_pos, Except.ok.injEq] at h
      subst h
      by_cases h2 : s0 = sec2
      · subst h2
        have hkne : pyLower key2 ≠ pyLower key := fun hh => hne ⟨rfl, hh⟩
        simp [configGet?, findSect?, kvGet_kvSet_ne _ _ _ _ hkne]
      · simp [configGet?, findSect?, h2]
    · simp only [configSetE, hs, ite_false] at h
      cases hr : configSetE rest sec key v with
      | error e => rw [hr] at h; simp [Except.map] at h
      | ok c =>
        rw [hr] at h
        simp only [Except.map, Except.ok.injEq] at h
        subst h
        by_cases h2 : s0 = sec2
        · simp [configGet?, findSect?, h2]
        · simp only [configGet?, findSect?, h2, ite_false]
          exact ih c hr

lemma configSetE_get_isSome (cfg : Config) (sec key v sec2 key2 : String) (cfg2 : Config)
    (h : configSetE cfg sec key v = Except.ok cfg2)
    (hp : (configGet? cfg sec2 key2).isSome = true) :
    (configGet? cfg2 sec2 key2).isSome = true := by
  induction cfg generalizing cfg2 with
  | nil => simp [configSetE] at h
  | cons p rest ih =>
    obtain ⟨s0, kvs⟩ := p
    by_cases hs : s0 = sec
    · subst hs
      simp only [configSetE, if_pos, Except.ok.injEq] at h
      subst h
      by_cases h2 : s0 = sec2
      · subst h2
        simp only [configGet?, findSect?, if_pos, Option.bind] at hp ⊢
        exact kvGet_kvSet_isSome kvs (pyLower key) (pyLower key2) v hp
      · simp only [configGet?, findSect?, h2, ite_false] at hp ⊢
        exact hp
    · simp only [configSetE, hs, ite_false] at h
      cases hr : configSetE rest sec key v with
      | error e => rw [hr] at h; simp [Except.map] at h
      | ok c =>
        rw [hr] at h
        simp only [Except.map, Except.ok.injEq] at h
        subst h
        by_cases h2 : s0 = sec2
        · simp only [configGet?, findSect?, h2, if_pos] at hp ⊢
          exact hp
        · simp only [configGet?, findSect?, h2, ite_false] at hp ⊢
          exact ih c hr hp

lemma setList_map_fst (ks : List (String × String)) (cfg : Config)
    (vals : String → String → String) (cfg2 : Config)
    (h : setList ks cfg vals = Except.ok cfg2) :
    cfg2.map Prod.fst = cfg.map Prod.fst := by
  induction ks generalizing cfg with
  | nil =>
    simp only [setList, Except.ok.injEq] at h
    subst h
    rfl
  | cons sk rest ih =>
    simp only [setList] at h
    cases hr : configSetE cfg sk.1 sk.2 (vals sk.1 sk.2) with
    | error e => rw [hr] at h; simp at h
    | ok c =>
      rw [hr] at h
      simp only at h
      exact (ih c h).trans (configSetE_map_fst cfg sk.1 sk.2 (vals sk.1 sk.2) c hr)

lemma setList_isSome (ks : List (String × String)) (cfg : Config)
    (vals : String → String → String) (cfg2 : Config) (sec key : String)
    (h : setList ks cfg vals = Except.ok cfg2)
    (hp : (configGet? cfg sec key).isSome = true) :
    (configGet? cfg2 sec key).isSome = true := by
  induction ks generalizing cfg with
  | nil =>
    simp only [setList, Except.ok.injEq] at h
    subst h
    exact hp
  | cons sk rest ih =>
    simp only [setList] at h
    cases hr : configSetE cfg sk.1 sk.2 (vals sk.1 sk.2) with
    | error e => rw [hr] at h; simp at h
    | ok c =>
      rw [hr] at h
      simp only at h
      exact ih c h (configSetE_get_isSome cfg sk.1 sk.2 (vals sk.1 sk.2) sec key c hr hp)

lemma setList_frame (ks : List (String × String)) (cfg : Config)
    (vals : String → String → String) (cfg2 : Config) (sec key : String)
    (hub : ∀ p ∈ ks, ¬(p.1 = sec ∧ pyLower p.2 = pyLower key))
    (h : setList ks cfg vals = Except.ok cfg2) :
    configGet? cfg2 sec key = configGet? cfg sec key := by
  induction ks generalizing cfg with
  | nil =>
    simp only [setList, Except.ok.injEq] at h
    subst h
    rfl
  | cons sk rest ih =>
    simp only [setList] at h
    cases hr : configSetE cfg sk.1 sk.2 (vals sk.1 sk.2) with
    | error e => rw [hr] at h; simp at h
    | ok c =>
      rw [hr] at h
      simp only at h
      have hne2 : ¬(sec = sk.1 ∧ pyLower key = pyLower sk.2) := fun hc =>
        hub sk (List.mem_cons_self sk rest) ⟨hc.1.symm, hc.2.symm⟩
      have h1 := ih c (fun p hp => hub p (List.mem_cons_of_mem sk hp)) h
      have h2 := configSetE_get_ne cfg sk.1 sk.2 (vals sk.1 sk.2) sec key c hr hne2
      exact h1.trans h2

/-- A (section, key) pair bound to no form widget: it differs, modulo the
configparser key lowering, from every pair `save_config` writes. -/
def unboundKey (sec key : String) : Prop :=
  ∀ p ∈ boundKeys, ¬(p.1 = sec ∧ pyLower p.2 = pyLower key)

/-- The conclusion of claim C3: Save writes the updated config object
wholesale, the written file keeps exactly the loaded sections, every loaded
key is still present, and every key not bound to a widget keeps exactly the
value it was loaded with. -/
def C3Prop (cfg : Config) (vals : String → String → String) (cfg2 : Config) : Prop :=
  (save_config cfg vals).fileWritten = some cfg2
  ∧ (save_config cfg vals).accepted = true
  ∧ cfg2.map Prod.fst = cfg.map Prod.fst
  ∧ (∀ sec key, (configGet? cfg sec key).isSome = true →
      (configGet? cfg2 sec key).isSome = true)
  ∧ (∀ sec key, unboundKey sec key →
      configGet? cfg2 sec key = configGet? cfg sec key)

/-- Claim C3: when the sixty `config.set` calls succeed, Save rewrites the
configuration file wholesale from the config object: every loaded section and
key (bound to a widget or not) is written back, and every unbound key keeps
exactly its loaded value. -/
theorem C3_thm (cfg : Config) (vals : String → String → String) (cfg2 : Config)
    (h : setAllE cfg vals = Except.ok cfg2) : C3Prop cfg vals cfg2 := by
  refine ⟨by simp [save_config, h], by simp [save_config, h],
    setList_map_fst boundKeys cfg vals cfg2 h,
    fun sec key hp => setList_isSome boundKeys cfg vals cfg2 sec key h hp,
    fun sec key hub => setList_frame boundKeys cfg vals cfg2 sec key hub h⟩

/-- Witness for C3_thm: a config holding all thirteen sections plus one extra
unbound key; the sixty sets succeed and C3Prop holds for the written file. -/
theorem C3_witness :
    ∃ cfg2,
      setAllE
        [("STATION", [("extra_key", "keepme")]), ("TCP", []), ("JS8Call", []),
          ("N1MM", []), ("GRIDTRACKER", []), ("GEOSERVER", []), ("YAAC", []),
          ("ADIF", []), ("DATABASES", []), ("DEBUG", []), ("SMTP", []),
          ("GRIDS", []), ("AUTH", [])] (fun _ k => k) = Except.ok cfg2
      ∧ C3Prop
          [("STATION", [("extra_key", "keepme")]), ("TCP", []), ("JS8Call", []),
            ("N1MM", []), ("GRIDTRACKER", []), ("GEOSERVER", []), ("YAAC", []),
            ("ADIF", []), ("DATABASES", []), ("DEBUG", []), ("SMTP", []),
            ("GRIDS", []), ("AUTH", [])] (fun _ k => k) cfg2 :=
  ⟨_, rfl, C3_thm _ _ _ rfl⟩

lemma findSect_of_absent (cfg : Config) (sec : String)
    (h : sectionPresent cfg sec = false) : findSect? cfg sec = none := by
  unfold sectionPresent at h
  cases hf : findSect? cfg sec with
  | none => rfl
  | some kvs => rw [hf] at h; simp at h

lemma sectGetE_absent (cfg : Config) (sec : String)
    (h : sectionPresent cfg sec = false) :
    sectGetE cfg sec = Except.error (PyError.keyError sec) := by
  rw [sectGetE, findSect_of_absent cfg sec h]

lemma udpClientStep_absent (cfg : Config) (sec name dh dp : String)
    (h : sectionPresent cfg sec = false) :
    udpClientStep cfg sec name dh dp = Except.error (PyError.keyError sec) := by
  rw [udpClientStep, sectGetE_absent cfg sec h]

lemma geoServerStep_absent (cfg : Config)
    (h : sectionPresent cfg ("GEOSERVER") = false) :
    geoServerStep cfg = Except.error (PyError.keyError ("GEOSERVER")) := by
  rw [geoServerStep, sectGetE_absent cfg ("GEOSERVER") h]

lemma fileClientStep_absent (cfg : Config) (sec name defLog : String)
    (h : sectionPresent cfg sec = false) :
    fileClientStep cfg sec name defLog = Except.error (PyError.keyError sec) := by
  rw [fileClientStep, sectGetE_absent cfg sec h]

lemma tcpEnabledOf_absent (cfg : Config)
    (h : sectionPresent cfg ("TCP") = false) : tcpEnabledOf cfg = false := by
  rw [tcpEnabledOf, findSect_of_absent cfg ("TCP") h]

lemma srcStep_js8_absent (cfg : Config)
    (ht : tcpEnabledOf cfg = false)
    (hj : sectionPresent cfg ("JS8Call") = false) :
    srcStep cfg = Except.error (PyError.keyError ("JS8Call")) := by
  simp [srcStep, ht, sectGetE_absent cfg ("JS8Call") hj]

/-- The conclusion of claim C8 (amended): the GUI `load_config` fails with an
exception whenever one of the unguarded client sections is missing, and when
both TCP and JS8Call sections are missing the exception is precisely the
KeyError on JS8Call. -/
def C8Prop (cfg : Config) : Prop :=
  isErrorE (gui_load_config cfg) = true
  ∧ (sectionPresent cfg ("TCP") = false → sectionPresent cfg ("JS8Call") = false →
      gui_load_config cfg = Except.error (PyError.keyError ("JS8Call")))

/-- Claim C8, amended: only the TCP section is guarded; whenever a config file
is missing one of JS8Call (with TCP disabled), N1MM, GRIDTRACKER, GEOSERVER,
YAAC or ADIF, `load_config` raises an exception rather than applying defaults
(a KeyError whenever the missing section is the first failure reached, as in
the TCP-and-JS8Call-absent conjunct); per-key fallbacks apply only when the
section itself exists. -/
theorem C8_thm (cfg : Config)
    (h : sectionPresent cfg ("N1MM") = false
      ∨ sectionPresent cfg ("GRIDTRACKER") = false
      ∨ sectionPresent cfg ("GEOSERVER") = false
      ∨ sectionPresent cfg ("YAAC") = false
      ∨ sectionPresent cfg ("ADIF") = false
      ∨ (tcpEnabledOf cfg = false ∧ sectionPresent cfg ("JS8Call") = false)) :
    C8Prop cfg := by
  constructor
  · rcases h with h | h | h | h | h | ⟨ht, hj⟩
    · have hn := udpClientStep_absent cfg ("N1MM") ("N1MM+") ("127.0.0.1") ("12060") h
      cases hs : srcStep cfg <;> simp [gui_load_config, hs, hn, isErrorE]
    · have hg := udpClientStep_absent cfg ("GRIDTRACKER") ("GridTracker") ("127.0.0.1") ("2237") h
      cases hs : srcStep cfg with
      | error e => simp [gui_load_config, hs, isErrorE]
      | ok s =>
        cases h1 : udpClientStep cfg ("N1MM") ("N1MM+") ("127.0.0.1") ("12060") <;>
          simp [gui_load_config, hs, h1, hg, isErrorE]
    · have hgs := geoServerStep_absent cfg h
      cases hs : srcStep cfg with
      | error e => simp [gui_load_config, hs, isErrorE]
      | ok s =>
        cases h1 : udpClientStep cfg ("N1MM") ("N1MM+") ("127.0.0.1") ("12060") with
        | error e => simp [gui_load_config, hs, h1, isErrorE]
        | ok l1 =>
          cases h2 : udpClientStep cfg ("GRIDTRACKER") ("GridTracker") ("127.0.0.1") ("2237") <;>
            simp [gui_load_config, hs, h1, h2, hgs, isErrorE]
    · have hy := fileClientStep_absent cfg ("YAAC") ("YAAC") ("yaac.log") h
      cases hs : srcStep cfg with
      | error e => simp [gui_load_config, hs, isErrorE]
      | ok s =>
        cases h1 : udpClientStep cfg ("N1MM") ("N1MM+") ("127.0.0.1") ("12060") with
        | error e => simp [gui_load_config, hs, h1, isErrorE]
        | ok l1 =>
          cases h2 : udpClientStep cfg ("GRIDTRACKER") ("GridTracker") ("127.0.0.1") ("2237") with
          | error e => simp [gui_load_config, hs, h1, h2, isErrorE]
          | ok l2 =>
            cases h3 : geoServerStep cfg <;>
              simp [gui_load_config, hs, h1, h2, h3, hy, isErrorE]
    · have ha := fileClientStep_absent cfg ("ADIF") ("ADIF") ("adif.log") h
      cases hs : srcStep cfg with
      | error e => simp [gui_load_config, hs, isErrorE]
      | ok s =>
        cases h1 : udpClientStep cfg ("N1MM") ("N1MM+") ("127.0.0.1") ("12060") with
        | error e => simp [gui_load_config, hs, h1, isErrorE]
        | ok l1 =>
          cases h2 : udpClientStep cfg ("GRIDTRACKER") ("GridTracker") ("127.0.0.1") ("2237") with
          | error e => simp [gui_load_config, hs, h1, h2, isErrorE]
          | ok l2 =>
            cases h3 : geoServerStep cfg with
            | error e => simp [gui_load_config, hs, h1, h2, h3, isErrorE]
            | ok l3 =>
              cases h4 : fileClientStep cfg ("YAAC") ("YAAC") ("yaac.log") <;>
                simp [gui_load_config, hs, h1, h2, h3, h4, ha, isErrorE]
    · simp [gui_load_config, srcStep_js8_absent cfg ht hj, isErrorE]
  · intro ht hj
    simp [gui_load_config, srcStep_js8_absent cfg (tcpEnabledOf_absent cfg ht) hj]

/-- Witness for C8_thm at the empty config: every section is missing and
`load_config` both fails and, with TCP and JS8Call missing, fails with the
JS8Call KeyError. -/
theorem C8_witness : C8Prop [] :=
  C8_thm [] (Or.inl rfl)

/-- Claim C8, counterexample: a config that is missing the GRIDTRACKER section
but carries the unparsable N1MM enabled value banana makes `load_config` raise
a ValueError, not a KeyError, so the claim that every config missing one of
the listed sections raises a KeyError fails as stated. -/
theorem C8_counterexample :
    sectionPresent [("JS8Call", []), ("N1MM", [("enabled", "banana")])] ("GRIDTRACKER") = false
    ∧ isErrorE (gui_load_config [("JS8Call", []), ("N1MM", [("enabled", "banana")])]) = true
    ∧ isKeyErrorE (gui_load_config [("JS8Call", []), ("N1MM", [("enabled", "banana")])]) = false :=
  ⟨rfl, rfl, rfl⟩

end JS8CM
